import Mathlib

/-!
# WeApRous HTTP adapter — verification development

Shallow embedding of `src/daemon/httpadapter.py` (the per-connection HTTP
dispatcher of the WeApRous repository) and proofs about its dispatch
pipeline: the login bypass, the cookie session guard, the handler-result
normalization protocol, the raw-bytes static path and the top-level fault
containment of `handle_client`.

Modelling conventions:
* Byte strings (`bytes` in the source) are modelled as Lean `String`s;
  UTF-8 encode/decode (always performed with `errors="ignore"`) is the
  identity on this representation.
* Python runtime values that the normalizer inspects with `isinstance`
  are modelled by the inductive `PyVal`.
* Python `dict`s are association lists with first-match lookup and
  in-place update (`hset`), mirroring insertion-order semantics;
  a dict display `{k: v, **(h or {})}` is `hmerge [(k, v)] h`.
* Raised exceptions are modelled with `Except String`, carrying the
  exception message (`str(e)`).
* The collaborators that live outside `src/` — `Request.prepare`,
  `Response.build_response`, `Response.compose` (spec section 6 interfaces
  `parse`, `composeStatic`, `compose`) — are abstract parameters of the
  dispatcher, collected in the `World` structure.
-/

/-- A Python runtime value, as far as the adapter's normalization code
inspects values with `isinstance`: `None`, `bool`, `int`, `str`, `bytes`,
`list`, `tuple` and string-keyed `dict`. -/
inductive PyVal where
  | pnone : PyVal
  | pbool : Bool → PyVal
  | pint : Int → PyVal
  | pstr : String → PyVal
  | pbytes : String → PyVal
  | plist : List PyVal → PyVal
  | ptuple : List PyVal → PyVal
  | pdict : List (String × PyVal) → PyVal

/-- Header mappings (Python `dict`s with string keys) as association lists. -/
abbrev Headers := List (String × PyVal)

/-- First-match lookup in an association list — Python `d.get(k)` /
`d[k]` on a dict with unique keys. -/
def hget : Headers → String → Option PyVal
  | [], _ => none
  | (k, v) :: tl, key => if key = k then some v else hget tl key

/-- In-place update `d[k] = v`: replace the first binding of `k`, keeping
its position, or append a fresh binding — Python dict assignment. -/
def hset : Headers → String → PyVal → Headers
  | [], k, v => [(k, v)]
  | (k', v') :: tl, k, v =>
      if k' = k then (k, v) :: tl else (k', v') :: hset tl k v

/-- Python dict display `{base..., **ov}`: start from `base` and assign
every binding of `ov` in order (later bindings override). -/
def hmerge (base ov : Headers) : Headers :=
  ov.foldl (fun acc p => hset acc p.1 p.2) base

/-- String-valued dict (cookies, parsed login credentials). -/
abbrev SDict := List (String × String)

/-- First-match lookup — Python `d.get(k)` on a string dict. -/
def sget : SDict → String → Option String
  | [], _ => none
  | (k, v) :: tl, key => if key = k then some v else sget tl key

/-- Python dict assignment `d[k] = v` on a string dict. -/
def sset : SDict → String → String → SDict
  | [], k, v => [(k, v)]
  | (k', v') :: tl, k, v =>
      if k' = k then (k, v) :: tl else (k', v') :: sset tl k v

/-- JSON string quoting as performed by `json.dumps` on strings without
control characters or non-ASCII text (the fragment the adapter uses). -/
def jsonQuote (s : String) : String :=
  "\"" ++ s.data.foldr (fun c acc =>
    (if c = '\\' then "\\\\" else if c = '"' then "\\\"" else String.singleton c) ++ acc) "" ++ "\""

mutual

/-- `json.dumps` with the default separators `", "` and `": "`;
fails (raises `TypeError`) on `bytes`, like the Python original. -/
def jsonDumpsE : PyVal → Except String String
  | .pnone => .ok "null"
  | .pbool b => .ok (if b then "true" else "false")
  | .pint n => .ok (toString n)
  | .pstr s => .ok (jsonQuote s)
  | .pbytes _ => .error "Object of type bytes is not JSON serializable"
  | .plist xs => do
      let parts ← jsonSeqE xs
      .ok ("[" ++ String.intercalate ", " parts ++ "]")
  | .ptuple xs => do
      let parts ← jsonSeqE xs
      .ok ("[" ++ String.intercalate ", " parts ++ "]")
  | .pdict es => do
      let parts ← jsonObjE es
      .ok ("\x7b" ++ String.intercalate ", " parts ++ "\x7d")

/-- Serialize the elements of a JSON array. -/
def jsonSeqE : List PyVal → Except String (List String)
  | [] => .ok []
  | v :: tl => do
      let s ← jsonDumpsE v
      let rest ← jsonSeqE tl
      .ok (s :: rest)

/-- Serialize the members of a JSON object. -/
def jsonObjE : List (String × PyVal) → Except String (List String)
  | [] => .ok []
  | (k, v) :: tl => do
      let s ← jsonDumpsE v
      let rest ← jsonObjE tl
      .ok ((jsonQuote k ++ ": " ++ s) :: rest)

end

mutual

/-- Python `repr` on the modelled values (used by `str` on containers). -/
def pyRepr : PyVal → String
  | .pnone => "None"
  | .pbool b => if b then "True" else "False"
  | .pint n => toString n
  | .pstr s => "\x27" ++ s ++ "\x27"
  | .pbytes s => "b\x27" ++ s ++ "\x27"
  | .plist xs => "[" ++ String.intercalate ", " (pyReprSeq xs) ++ "]"
  | .ptuple xs =>
      "(" ++ String.intercalate ", " (pyReprSeq xs) ++
        (if xs.length = 1 then ",)" else ")")
  | .pdict es => "\x7b" ++ String.intercalate ", " (pyReprObj es) ++ "\x7d"

/-- `repr` of the elements of a sequence. -/
def pyReprSeq : List PyVal → List String
  | [] => []
  | v :: tl => pyRepr v :: pyReprSeq tl

/-- `repr` of the members of a dict. -/
def pyReprObj : List (String × PyVal) → List String
  | [] => []
  | (k, v) :: tl => ("\x27" ++ k ++ "\x27: " ++ pyRepr v) :: pyReprObj tl

end

/-- Python `str(result)`, the fallback stringification of the normalizer. -/
def pyStr : PyVal → String
  | .pstr s => s
  | v => pyRepr v

/-- Python truthiness of the modelled values (`headers or {}`). -/
def isFalsy : PyVal → Bool
  | .pnone => true
  | .pbool b => !b
  | .pint n => n == 0
  | .pstr s => s.isEmpty
  | .pbytes s => s.isEmpty
  | .plist xs => xs.isEmpty
  | .ptuple xs => xs.isEmpty
  | .pdict es => es.isEmpty

/-- The mapping-unpack `{..., **(headers or {})}` applied to the second
element of a handler's 3-tuple: falsy values become the empty dict, a
dict unpacks to its bindings, anything else raises `TypeError`. -/
def asHeadersE (v : PyVal) : Except String Headers :=
  if isFalsy v then .ok []
  else
    match v with
    | .pdict es => .ok es
    | _ => .error "object is not a mapping"

/-- One entry of the module-level `ERRORS` catalog of `httpadapter.py`. -/
structure CatalogEntry where
  status : String
  contentType : String
  headers : Headers
  body : String

/-- `ERRORS["unauthorized"]`. -/
def errUnauthorized : CatalogEntry :=
  { status := "401 Unauthorized"
    contentType := "text/html; charset=utf-8"
    headers := []
    body := "<html><head><title>401</title></head><body><h1>401 Unauthorized</h1><p>Please <a href=\x27/login.html\x27>login</a> first</p></body></html>" }

/-- `ERRORS["login_failed"]`. -/
def errLoginFailed : CatalogEntry :=
  { status := "401 Unauthorized"
    contentType := "text/html; charset=utf-8"
    headers := []
    body := "<html><head><title>Login Failed</title></head><body><h1>401 Unauthorized</h1><p>Invalid username or password</p><p><a href=\x27/login.html\x27>Try again</a></p></body></html>" }

/-- `ERRORS["not_found"]`. -/
def errNotFound : CatalogEntry :=
  { status := "404 Not Found"
    contentType := "text/html; charset=utf-8"
    headers := []
    body := "<h1>404 Not Found</h1>" }

/-- `ERRORS["server_error"]`. -/
def errServerError : CatalogEntry :=
  { status := "500 Internal Server Error"
    contentType := "text/html; charset=utf-8"
    headers := []
    body := "<h1>500 Internal Server Error</h1>" }

/-- `ERRORS["api_error"]`. -/
def errApiError : CatalogEntry :=
  { status := "500 Internal Server Error"
    contentType := "application/json; charset=utf-8"
    headers := []
    body := "\x7b\"status\":\"error\",\"message\":\"internal\"\x7d" }

/-- A `(status, headers, body)` response triple as the adapter passes it
to `_send`: the status may be any value a handler returned, the headers
are either a dict or `None` (the static path uses `None`), the body is
any value (bytes after normalization). -/
structure Triple where
  status : PyVal
  headers : Option Headers
  body : PyVal

/-- Build the triple `(e["status"], {"Content-Type": e["content_type"],
**e["headers"]}, e["body"])` the adapter derives from a catalog entry. -/
def catalogTriple (e : CatalogEntry) : Triple :=
  { status := .pstr e.status
    headers := some (hmerge [("Content-Type", .pstr e.contentType)] e.headers)
    body := .pbytes e.body }

/-- A parsed HTTP request as `Request.prepare` delivers it to the
adapter: method, path, header mapping, cookie mapping, body text (the
adapter decodes the body with `errors="ignore"` before use), and the
route hook bound by the route table for (method, path), if any. -/
structure Request where
  method : String
  path : String
  headers : Headers
  cookies : SDict
  body : String
  hook : Option (Headers → String → Except String PyVal)

/-- Modelled from the spec: the external collaborator interfaces of
section 6 that the dispatcher consumes — `parse(rawBytes, routeTable)`
(here `prepare`, with the route table baked in), `composeStatic(Request)`
(here `buildResponse`, the static-file pipeline of
`Response.build_response`, which may raise), and
`compose(status, headers, body)` (wire serialization of a triple).
These live outside `src/`; every theorem below quantifies over them. -/
structure World where
  prepare : String → Except String Request
  buildResponse : Request → Except String String
  compose : PyVal → Option Headers → PyVal → String

/-- One client connection: the result of its single `recv` (or the raised
transport error), whether the n-th `sendall` call of this cycle succeeds,
the message of a failing `sendall`, and whether `close` succeeds. -/
structure Conn where
  recvResult : Except String String
  sendOk : Nat → Bool
  sendErrMsg : String
  closeOk : Bool

/-- Observable socket actions of one dispatch cycle. -/
inductive ConnEvent where
  | sent : String → ConnEvent
  | sendFailed : String → ConnEvent
  | closed : ConnEvent
  | closeFailed : ConnEvent
deriving DecidableEq

/-- Python `str.split(sep)` for a one-character separator, keeping empty
parts (`"".split("&") == [""]`). -/
def splitChar (sep : Char) : List Char → List (List Char)
  | [] => [[]]
  | c :: rest =>
      let r := splitChar sep rest
      if c = sep then [] :: r
      else
        match r with
        | [] => [[c]]
        | h :: t => (c :: h) :: t

/-- Join character lists with a one-character separator (the effect of
Python `sep.join`, used to model `pair.split("=", 1)[1]`). -/
def joinChar (sep : Char) : List (List Char) → List Char
  | [] => []
  | [x] => x
  | x :: y :: t => x ++ sep :: joinChar sep (y :: t)

/-- The credential parse of `_handle_login`: split the body on `&`, and
each pair containing `=` on the first `=` (`pair.split("=", 1)`); assign
into a dict in order. -/
def parseCreds (s : String) : SDict :=
  (splitChar '&' s.data).foldl (fun acc pair =>
    match splitChar '=' pair with
    | [] => acc
    | [_] => acc
    | k :: rest => sset acc (String.mk k) (String.mk (joinChar '=' rest))) []

/-- The suffix after the first occurrence of `sep`, if any — Python
`raw.split(sep, 1)[1]` guarded by `sep in raw`. -/
def afterFirst (sep : List Char) : List Char → Option (List Char)
  | [] => none
  | c :: rest =>
      if sep.isPrefixOf (c :: rest) then some ((c :: rest).drop sep.length)
      else afterFirst sep rest

/-- `raw.split(b"\r\n\r\n", 1)[1] if b"\r\n\r\n" in raw else raw`:
strip the header block of a composed response. -/
def splitBody (raw : String) : String :=
  match afterFirst "\r\n\r\n".data raw.data with
  | some rest => String.mk rest
  | none => raw

/-- `_handle_login`: parse the form body; on `admin`/`password` serve the
static `/index.html` bytes (header block stripped) with the auth cookie,
else return the `login_failed` catalog triple. `build_response` may
raise; that exception propagates to `handle_client`. -/
def handle_login (w : World) (req : Request) : Except String Triple := do
  let creds := parseCreds req.body
  if sget creds "username" = some "admin" ∧ sget creds "password" = some "password" then
    let req2 := { req with path := "/index.html" }
    let raw ← w.buildResponse req2
    let body := splitBody raw
    pure { status := .pstr "200 OK"
           headers := some [("Content-Type", .pstr "text/html; charset=utf-8"),
                            ("Set-Cookie", .pstr "auth=true; Path=/")]
           body := .pbytes body }
  else
    pure (catalogTriple errLoginFailed)

/-- `_cookie_auth_guard`: protect `/` and `/index.html`; short-circuit
with the `unauthorized` catalog triple unless cookie `auth` is the
literal string `"true"`. -/
def cookie_auth_guard (req : Request) : Option Triple :=
  if req.path = "/" ∨ req.path = "/index.html" then
    if sget req.cookies "auth" ≠ some "true" then some (catalogTriple errUnauthorized)
    else none
  else none

/-- The JSON fault envelope of `_handle_weaprous`'s except-branch:
`'{{"status":"error","message":"{}"}}'.format(str(ex))`. -/
def jsonErrBody (msg : String) : String :=
  "\x7b\"status\":\"error\",\"message\":\"" ++ msg ++ "\"\x7d"

/-- `json.dumps({"status": "success"})`. -/
def successBody : String := "\x7b\"status\": \"success\"\x7d"

/-- The result-normalization block of `_handle_weaprous`, mirroring its
branch order: 3-tuples first (body coerced, default JSON content type only
for dict/list bodies, `Access-Control-Allow-Origin` filled in), then
`None`, dict/list, str, and the stringifying fallback. Failures
(`json.dumps` on bytes, unpacking a non-mapping headers value) are raised
and caught by `handle_weaprous`'s except-branch. -/
def normalizeResult : PyVal → Except String Triple
  | .ptuple [st, hd, bd] =>
      match bd with
      | .pdict es => do
          let j ← jsonDumpsE (.pdict es)
          let h0 ← asHeadersE hd
          let h1 := hmerge [("Content-Type", .pstr "application/json; charset=utf-8")] h0
          pure { status := st
                 headers := some (hmerge [("Access-Control-Allow-Origin", .pstr "*")] h1)
                 body := .pbytes j }
      | .plist xs => do
          let j ← jsonDumpsE (.plist xs)
          let h0 ← asHeadersE hd
          let h1 := hmerge [("Content-Type", .pstr "application/json; charset=utf-8")] h0
          pure { status := st
                 headers := some (hmerge [("Access-Control-Allow-Origin", .pstr "*")] h1)
                 body := .pbytes j }
      | .pstr s => do
          let h0 ← asHeadersE hd
          pure { status := st
                 headers := some (hmerge [("Access-Control-Allow-Origin", .pstr "*")] h0)
                 body := .pbytes s }
      | _ => do
          let h0 ← asHeadersE hd
          pure { status := st
                 headers := some (hmerge [("Access-Control-Allow-Origin", .pstr "*")] h0)
                 body := bd }
  | .pnone =>
      pure { status := .pstr "200 OK"
             headers := some [("Content-Type", .pstr "application/json; charset=utf-8"),
                              ("Access-Control-Allow-Origin", .pstr "*")]
             body := .pbytes successBody }
  | .pdict es => do
      let j ← jsonDumpsE (.pdict es)
      pure { status := .pstr "200 OK"
             headers := some [("Content-Type", .pstr "application/json; charset=utf-8"),
                              ("Access-Control-Allow-Origin", .pstr "*")]
             body := .pbytes j }
  | .plist xs => do
      let j ← jsonDumpsE (.plist xs)
      pure { status := .pstr "200 OK"
             headers := some [("Content-Type", .pstr "application/json; charset=utf-8"),
                              ("Access-Control-Allow-Origin", .pstr "*")]
             body := .pbytes j }
  | .pstr s =>
      pure { status := .pstr "200 OK"
             headers := some [("Content-Type", .pstr "text/plain; charset=utf-8"),
                              ("Access-Control-Allow-Origin", .pstr "*")]
             body := .pbytes s }
  | v =>
      pure { status := .pstr "200 OK"
             headers := some [("Content-Type", .pstr "text/plain; charset=utf-8"),
                              ("Access-Control-Allow-Origin", .pstr "*")]
             body := .pbytes (pyStr v) }

/-- `_handle_weaprous`: invoke the bound hook with the request's header
mapping and body text, normalize the result; any exception raised by the
hook or the normalization is caught and turned into the 500 JSON fault
envelope. Never raises. -/
def handle_weaprous (hk : Headers → String → Except String PyVal) (req : Request) : Triple :=
  match (do
    let result ← hk req.headers req.body
    normalizeResult result : Except String Triple) with
  | .ok t => t
  | .error msg =>
      { status := .pstr "500 Internal Server Error"
        headers := some [("Content-Type", .pstr "application/json; charset=utf-8")]
        body := .pbytes (jsonErrBody msg) }

/-- `_handle_static`: the composed static response bytes, tagged with
the internal `__RAW__` status so `_send` does not re-wrap them. -/
def handle_static (w : World) (req : Request) : Except String Triple := do
  let raw ← w.buildResponse req
  pure { status := .pstr "__RAW__", headers := none, body := .pbytes raw }

/-- `_dispatch`: route hook if bound, else the static pipeline. -/
def dispatch (w : World) (req : Request) : Except String Triple :=
  match req.hook with
  | some hk => pure (handle_weaprous hk req)
  | none => handle_static w req

/-- Python `status == "__RAW__"` on an arbitrary value. -/
def isRawTag : PyVal → Bool
  | .pstr s => s == "__RAW__"
  | _ => false

/-- `_send`, up to the socket write: the bytes handed to `conn.sendall` —
the body verbatim under the `__RAW__` tag (raising `TypeError` if it is
not a bytes object), otherwise `resp.compose(status, headers, body)`. -/
def sendPayloadE (w : World) (t : Triple) : Except String String :=
  if isRawTag t.status then
    match t.body with
    | .pbytes b => .ok b
    | _ => .error "a bytes-like object is required"
  else .ok (w.compose t.status t.headers t.body)

/-- The gate ordering of `handle_client` after parsing: `POST /login`
first (before any guard), then the cookie guard, then dispatch; the
result is the byte payload handed to `conn.sendall`, or the exception
that reaches the top-level handler. -/
def afterParse (w : World) (req : Request) : Except String String :=
  if req.method = "POST" ∧ req.path = "/login" then do
    let t ← handle_login w req
    sendPayloadE w t
  else
    match cookie_auth_guard req with
    | some t => sendPayloadE w t
    | none => do
        let t ← dispatch w req
        sendPayloadE w t

/-- The whole try-block of `handle_client`: recv, parse, gates, dispatch,
compose — everything before the first `sendall`. -/
def tryBytes (w : World) (conn : Conn) : Except String String := do
  let raw ← conn.recvResult
  let req ← w.prepare raw
  afterParse w req

/-- The fallback wire bytes of `handle_client`'s except-branch: the
`server_error` catalog entry with the fault message appended inside an
HTML comment. -/
def fallbackBytes (w : World) (msg : String) : String :=
  w.compose (.pstr errServerError.status)
    (some (hmerge [("Content-Type", .pstr errServerError.contentType)] errServerError.headers))
    (.pbytes (errServerError.body ++ "\n<!-- " ++ msg ++ " -->"))

/-- `handle_client`: run the try-block; on success send its payload; on
any fault send the `server_error` fallback. A failing primary `sendall`
is caught by the except-branch (which then attempts the fallback write);
a failing fallback `sendall` propagates. The finally-block closes the
connection exactly once, swallowing a failing `close`. The result is the
socket event trace and the outcome seen by the caller (`ok` = returned
normally, `error` = exception propagated). -/
def handle_client (w : World) (conn : Conn) : List ConnEvent × Except String Unit :=
  let core : List ConnEvent × Except String Unit :=
    match tryBytes w conn with
    | .ok b =>
        if conn.sendOk 0 then ([.sent b], .ok ())
        else
          let fb := fallbackBytes w conn.sendErrMsg
          if conn.sendOk 1 then ([.sendFailed b, .sent fb], .ok ())
          else ([.sendFailed b, .sendFailed fb], .error conn.sendErrMsg)
    | .error e =>
        let fb := fallbackBytes w e
        if conn.sendOk 0 then ([.sent fb], .ok ())
        else ([.sendFailed fb], .error conn.sendErrMsg)
  (core.1 ++ [if conn.closeOk then ConnEvent.closed else ConnEvent.closeFailed], core.2)

/-- First-defined-wins combination of two lookups. -/
def ofirst : Option PyVal → Option PyVal → Option PyVal
  | some v, _ => some v
  | none, b => b

/-- A sample route hook used to instantiate witnesses: returns `"hi"`. -/
def hkHi : Headers → String → Except String PyVal := fun _ _ => .ok (.pstr "hi")

/-- A sample collaborator world with fully concrete parse, static and
compose operations, used to instantiate witnesses. -/
def wSample : World :=
  { prepare := fun _ =>
      .ok { method := "GET", path := "/about.html", headers := [], cookies := [],
            body := "", hook := none }
    buildResponse := fun r =>
      .ok ("HTTP/1.1 200 OK\r\nServer: WeApRous\r\n\r\nSTATIC:" ++ r.path)
    compose := fun st hd bd =>
      pyStr st ++ "\r\n" ++
        (match hd with
         | none => ""
         | some h => pyRepr (.pdict h)) ++ "\r\n\r\n" ++ pyStr bd }

/-- A healthy connection delivering `raw` from its single `recv`. -/
def connOf (raw : String) : Conn :=
  { recvResult := .ok raw, sendOk := fun _ => true, sendErrMsg := "send failed",
    closeOk := true }

/-- A guarded request without the auth cookie but with a bound hook. -/
def reqGuardW : Request :=
  { method := "GET", path := "/", headers := [], cookies := [("theme", "dark")],
    body := "", hook := some hkHi }

/-- A `POST /login` request carrying no auth cookie and a bound hook. -/
def reqLoginW : Request :=
  { method := "POST", path := "/login", headers := [], cookies := [],
    body := "username=admin&password=password", hook := some hkHi }

/-- The shape classifier for the normalizer's stringifying fallback:
everything that is not `None`, a str, a dict, a list or a 3-tuple. -/
def isOtherVal : PyVal → Bool
  | .pnone => false
  | .pstr _ => false
  | .pdict _ => false
  | .plist _ => false
  | .ptuple xs => xs.length != 3
  | _ => true

/-- The hook used by the C8 witness: returns the dict `{"a": 1}`. -/
def hkDictW : Headers → String → Except String PyVal :=
  fun _ _ => .ok (.pdict [("a", .pint 1)])

/-- The request produced by parsing `GET /` under a route table that
binds a hook to `GET /` (as the sample app does) — auth cookie present. -/
def reqSlashC1 : Request :=
  { method := "GET", path := "/", headers := [("Host", .pstr "x")],
    cookies := [("auth", "true")], body := "", hook := some hkHi }

/-- The request produced by parsing `GET /index.html` under the same
route table (no hook bound to `/index.html`) — same cookies, headers and
body as `reqSlashC1`. -/
def reqIndexC1 : Request :=
  { method := "GET", path := "/index.html", headers := [("Host", .pstr "x")],
    cookies := [("auth", "true")], body := "", hook := none }

/-- Wire bytes of the two requests of the C1 counterexample. -/
def rawSlashC1 : String := "GET / HTTP/1.1\r\nCookie: auth=true\r\n\r\n"

/-- Wire bytes of `GET /index.html` with the same cookies. -/
def rawIndexC1 : String := "GET /index.html HTTP/1.1\r\nCookie: auth=true\r\n\r\n"

/-- The C1 world: `wSample`'s composer and static pipeline with a parser
for the two concrete raw requests above. -/
def wC1 : World :=
  { wSample with
      prepare := fun raw =>
        if raw = rawSlashC1 then .ok reqSlashC1 else .ok reqIndexC1 }

/-- Projection used to compare dispatch payloads. -/
def okPayload : Except String String → String
  | .ok s => s
  | .error e => e

/-- A connection whose every `sendall` raises. -/
def connDead : Conn :=
  { recvResult := .ok "GET /x HTTP/1.1\r\n\r\n", sendOk := fun _ => false,
    sendErrMsg := "Broken pipe", closeOk := true }

/-- Discriminator for a normal return of `handle_client`. -/
def isOkU : Except String Unit → Bool
  | .ok _ => true
  | .error _ => false

/-- A connection whose first `sendall` fails and whose second succeeds. -/
def connFlaky : Conn :=
  { recvResult := .ok "GET /about.html HTTP/1.1\r\n\r\n",
    sendOk := fun n => n == 1, sendErrMsg := "reset", closeOk := false }

/-- Close events of a dispatch trace. -/
def isCloseEv : ConnEvent → Bool
  | .closed => true
  | .closeFailed => true
  | _ => false

/-- The forging hook of the C10 witness: returns a `__RAW__` 3-tuple. -/
def hkRaw : Headers → String → Except String PyVal :=
  fun _ _ => .ok (.ptuple [.pstr "__RAW__", .pdict [], .pbytes "FORGED"])

/-- A request with the forging hook bound. -/
def reqRawW : Request :=
  { method := "GET", path := "/api/raw", headers := [], cookies := [],
    body := "", hook := some hkRaw }

theorem hget_hset (d : Headers) (k' : String) (v' : PyVal) (k : String) :
    hget (hset d k' v') k = if k = k' then some v' else hget d k := by
  induction d with
  | nil => simp [hset, hget]
  | cons p tl ih =>
      obtain ⟨a, b⟩ := p
      by_cases h1 : a = k'
      · subst h1
        by_cases h2 : k = a <;> simp [hset, hget, h2]
      · by_cases h2 : k = a
        · have hkk : ¬(k = k') := by rw [h2]; exact h1
          simp [hset, h1, hget, h2, hkk]
        · simp [hset, h1, hget, h2, ih]

theorem hget_append (d1 d2 : Headers) (k : String) :
    hget (d1 ++ d2) k = ofirst (hget d1 k) (hget d2 k) := by
  induction d1 with
  | nil => simp [hget, ofirst]
  | cons p tl ih =>
      obtain ⟨a, b⟩ := p
      by_cases h : k = a <;> simp [hget, h, ofirst, ih]

theorem hget_hmerge (ov : Headers) : ∀ (base : Headers) (k : String),
    hget (hmerge base ov) k = ofirst (hget ov.reverse k) (hget base k) := by
  induction ov with
  | nil => intro base k; simp [hmerge, hget, ofirst]
  | cons p tl ih =>
      intro base k
      obtain ⟨a, b⟩ := p
      have hstep : hmerge base ((a, b) :: tl) = hmerge (hset base a b) tl := rfl
      rw [hstep, ih, List.reverse_cons, hget_append]
      by_cases h : k = a <;>
        cases hres : hget tl.reverse k <;>
          simp [hget, hget_hset, h, ofirst, hres]

theorem hget_of_not_mem (d : Headers) (k : String) (h : k ∉ d.map Prod.fst) :
    hget d k = none := by
  induction d with
  | nil => simp [hget]
  | cons p tl ih =>
      obtain ⟨a, b⟩ := p
      simp only [List.map_cons, List.mem_cons, not_or] at h
      simp [hget, h.1, ih h.2]

theorem hget_reverse_of_nodup (d : Headers) (h : (d.map Prod.fst).Nodup) (k : String) :
    hget d.reverse k = hget d k := by
  induction d with
  | nil => rfl
  | cons p tl ih =>
      obtain ⟨a, b⟩ := p
      simp only [List.map_cons, List.nodup_cons] at h
      rw [List.reverse_cons, hget_append, ih h.2]
      by_cases hk : k = a
      · subst hk
        rw [hget_of_not_mem tl _ h.1]
        simp [hget, ofirst]
      · cases hres : hget tl k <;> simp [hget, hk, ofirst, hres]

theorem hset_map_fst (d : Headers) (k : String) (v : PyVal) :
    (hset d k v).map Prod.fst =
      if k ∈ d.map Prod.fst then d.map Prod.fst else d.map Prod.fst ++ [k] := by
  induction d with
  | nil => simp [hset]
  | cons p tl ih =>
      obtain ⟨a, b⟩ := p
      by_cases h : a = k
      · subst h; simp [hset]
      · have : ¬(k = a) := fun hh => h hh.symm
        by_cases hm : k ∈ tl.map Prod.fst <;> simp [hset, h, this, hm, ih]

theorem nodup_hset (d : Headers) (k : String) (v : PyVal)
    (h : (d.map Prod.fst).Nodup) : ((hset d k v).map Prod.fst).Nodup := by
  rw [hset_map_fst]
  by_cases hm : k ∈ d.map Prod.fst
  · simpa [hm] using h
  · simp only [hm, if_false]
    exact h.append (List.nodup_singleton k) (by simpa using hm)

theorem nodup_hmerge (ov : Headers) : ∀ (base : Headers),
    ((base.map Prod.fst).Nodup) → (((hmerge base ov).map Prod.fst).Nodup) := by
  induction ov with
  | nil => intro base h; simpa [hmerge] using h
  | cons p tl ih =>
      intro base h
      exact ih (hset base p.1 p.2) (nodup_hset base p.1 p.2 h)

/-- C6: for a request whose path is `/` or `/index.html` and whose cookies
lack an `auth` entry equal to the literal string `"true"`, the guard
short-circuits with the `unauthorized` catalog triple and the dispatcher
sends exactly that triple — for any bound hook, which is never invoked
(the sent payload does not depend on `req.hook`); for every other path,
and for the protected paths when the auth cookie equals `"true"`, the
guard returns none. -/
theorem session_guard_spec (req : Request) (w : World) :
    ((req.path = "/" ∨ req.path = "/index.html") →
      sget req.cookies "auth" ≠ some "true" →
        cookie_auth_guard req = some (catalogTriple errUnauthorized) ∧
        afterParse w req = sendPayloadE w (catalogTriple errUnauthorized)) ∧
    (((¬(req.path = "/" ∨ req.path = "/index.html")) ∨
        sget req.cookies "auth" = some "true") →
      cookie_auth_guard req = none) := by
  constructor
  · intro hp hc
    have hguard : cookie_auth_guard req = some (catalogTriple errUnauthorized) := by
      simp only [cookie_auth_guard, if_pos hp, if_pos hc]
    refine ⟨hguard, ?_⟩
    have hnl : ¬(req.method = "POST" ∧ req.path = "/login") := by
      rintro ⟨-, hpath⟩
      rcases hp with h | h <;> rw [h] at hpath <;> exact absurd hpath (by decide)
    simp only [afterParse, if_neg hnl, hguard]
  · intro h
    rcases h with h | h
    · simp only [cookie_auth_guard, if_neg h]
    · by_cases hp : req.path = "/" ∨ req.path = "/index.html"
      · simp only [cookie_auth_guard, if_pos hp]
        rw [if_neg (fun hne => hne h)]
      · simp only [cookie_auth_guard, if_neg hp]

/-- Witness for C6 at a concrete guarded request lacking the auth cookie. -/
theorem session_guard_spec_witness :
    ((reqGuardW.path = "/" ∨ reqGuardW.path = "/index.html") ∧
      sget reqGuardW.cookies "auth" ≠ some "true") ∧
    cookie_auth_guard reqGuardW = some (catalogTriple errUnauthorized) ∧
    afterParse wSample reqGuardW = sendPayloadE wSample (catalogTriple errUnauthorized) := by
  have h := (session_guard_spec reqGuardW wSample).1 (Or.inl rfl) (by decide)
  exact ⟨⟨Or.inl rfl, by decide⟩, h.1, h.2⟩

/-- C7: a request with method `POST` and path `/login` is answered by the
login flow — before the session guard runs (the request may carry any
cookies, in particular none) and without consulting the bound handler
(`req.hook` is arbitrary and never invoked: the payload is exactly the
login flow's triple passed to `_send`). -/
theorem login_bypass_spec (w : World) (req : Request)
    (h1 : req.method = "POST") (h2 : req.path = "/login") :
    afterParse w req = (do
      let t ← handle_login w req
      sendPayloadE w t) := by
  simp only [afterParse, if_pos (And.intro h1 h2)]

/-- Witness for C7 at a concrete cookie-less `POST /login` request with a
bound hook. -/
theorem login_bypass_spec_witness :
    (reqLoginW.method = "POST" ∧ reqLoginW.path = "/login") ∧
    afterParse wSample reqLoginW = (do
      let t ← handle_login wSample reqLoginW
      sendPayloadE wSample t) :=
  ⟨⟨rfl, rfl⟩, login_bypass_spec wSample reqLoginW rfl rfl⟩

/-- Reduce `_handle_weaprous` once the hook's return value is known. -/
theorem handle_weaprous_eq (hk : Headers → String → Except String PyVal)
    (req : Request) (v : PyVal) (hres : hk req.headers req.body = .ok v) :
    handle_weaprous hk req =
      match normalizeResult v with
      | .ok t => t
      | .error msg =>
          { status := .pstr "500 Internal Server Error"
            headers := some [("Content-Type", .pstr "application/json; charset=utf-8")]
            body := .pbytes (jsonErrBody msg) } := by
  unfold handle_weaprous
  rw [hres]
  rfl

/-- C2 (amended): when the bound handler raises with message `msg`, the
normalized result has status `500 Internal Server Error`, content type
`application/json; charset=utf-8`, and body exactly
`{"status":"error","message":"msg"}` — the message under the key
`"message"`, not `"error"`. -/
theorem fault_envelope (hk : Headers → String → Except String PyVal)
    (req : Request) (msg : String)
    (hres : hk req.headers req.body = .error msg) :
    handle_weaprous hk req =
      { status := .pstr "500 Internal Server Error"
        headers := some [("Content-Type", .pstr "application/json; charset=utf-8")]
        body := .pbytes (jsonErrBody msg) } := by
  unfold handle_weaprous
  rw [hres]
  rfl

/-- Witness for C2 (amended) at a hook raising `ValueError("bad")`. -/
theorem fault_envelope_witness :
    ((fun (_ : Headers) (_ : String) => (Except.error "bad" : Except String PyVal))
        reqGuardW.headers reqGuardW.body = .error "bad") ∧
    handle_weaprous (fun _ _ => .error "bad") reqGuardW =
      { status := .pstr "500 Internal Server Error"
        headers := some [("Content-Type", .pstr "application/json; charset=utf-8")]
        body := .pbytes (jsonErrBody "bad") } :=
  ⟨rfl, fault_envelope (fun _ _ => .error "bad") reqGuardW "bad" rfl⟩

/-- Counterexample to C2 as stated: for a handler raising with message
`"bad"`, the produced body is `{"status":"error","message":"bad"}` and
differs from the claimed `{"status":"error","error":"bad"}` — the fault
envelope keys the message under `"message"`, not `"error"`. -/
theorem fault_envelope_key_cex :
    (handle_weaprous (fun _ _ => .error "bad") reqGuardW).body =
      .pbytes "\x7b\"status\":\"error\",\"message\":\"bad\"\x7d" ∧
    "\x7b\"status\":\"error\",\"message\":\"bad\"\x7d" ≠
      "\x7b\"status\":\"error\",\"error\":\"bad\"\x7d" :=
  ⟨rfl, by decide⟩

/-- C8: handler return values that are not 3-tuples normalize to status
`200 OK` with: `None` giving the literal JSON success envelope and
content type `application/json`; a dict or list giving its JSON
serialization with content type `application/json`; a str giving its
UTF-8 encoding with content type `text/plain`; anything else giving the
UTF-8 encoding of its text representation with content type
`text/plain`; and every such success result carries the header
`Access-Control-Allow-Origin: *`. -/
theorem success_normalization_spec (hk : Headers → String → Except String PyVal)
    (req : Request) (v : PyVal) (hres : hk req.headers req.body = .ok v) :
    (v = .pnone → handle_weaprous hk req =
      { status := .pstr "200 OK"
        headers := some [("Content-Type", .pstr "application/json; charset=utf-8"),
                         ("Access-Control-Allow-Origin", .pstr "*")]
        body := .pbytes successBody }) ∧
    (∀ es j, v = .pdict es → jsonDumpsE (.pdict es) = .ok j →
      handle_weaprous hk req =
        { status := .pstr "200 OK"
          headers := some [("Content-Type", .pstr "application/json; charset=utf-8"),
                           ("Access-Control-Allow-Origin", .pstr "*")]
          body := .pbytes j }) ∧
    (∀ xs j, v = .plist xs → jsonDumpsE (.plist xs) = .ok j →
      handle_weaprous hk req =
        { status := .pstr "200 OK"
          headers := some [("Content-Type", .pstr "application/json; charset=utf-8"),
                           ("Access-Control-Allow-Origin", .pstr "*")]
          body := .pbytes j }) ∧
    (∀ s, v = .pstr s → handle_weaprous hk req =
      { status := .pstr "200 OK"
        headers := some [("Content-Type", .pstr "text/plain; charset=utf-8"),
                         ("Access-Control-Allow-Origin", .pstr "*")]
        body := .pbytes s }) ∧
    (isOtherVal v = true → handle_weaprous hk req =
      { status := .pstr "200 OK"
        headers := some [("Content-Type", .pstr "text/plain; charset=utf-8"),
                         ("Access-Control-Allow-Origin", .pstr "*")]
        body := .pbytes (pyStr v) }) := by
  rw [handle_weaprous_eq hk req v hres]
  refine ⟨?_, ?_, ?_, ?_, ?_⟩
  · rintro rfl; rfl
  · rintro es j rfl hj
    simp [normalizeResult, hj]
  · rintro xs j rfl hj
    simp [normalizeResult, hj]
  · rintro s rfl; rfl
  · intro hother
    cases v with
    | pnone => simp [isOtherVal] at hother
    | pstr s => simp [isOtherVal] at hother
    | pdict es => simp [isOtherVal] at hother
    | plist xs => simp [isOtherVal] at hother
    | pbool b => rfl
    | pint n => rfl
    | pbytes s => rfl
    | ptuple xs =>
        rcases xs with _ | ⟨a, _ | ⟨b, _ | ⟨c, _ | ⟨d, tl⟩⟩⟩⟩
        · rfl
        · rfl
        · rfl
        · simp [isOtherVal] at hother
        · rfl

/-- Witness for C8 at a hook returning `{"a": 1}`. -/
theorem success_normalization_spec_witness :
    (hkDictW reqGuardW.headers reqGuardW.body = .ok (.pdict [("a", PyVal.pint 1)]) ∧
     jsonDumpsE (.pdict [("a", PyVal.pint 1)]) = .ok "\x7b\"a\": 1\x7d") ∧
    handle_weaprous hkDictW reqGuardW =
      { status := .pstr "200 OK"
        headers := some [("Content-Type", .pstr "application/json; charset=utf-8"),
                         ("Access-Control-Allow-Origin", .pstr "*")]
        body := .pbytes "\x7b\"a\": 1\x7d" } :=
  ⟨⟨rfl, rfl⟩,
    (success_normalization_spec hkDictW reqGuardW (.pdict [("a", .pint 1)]) rfl).2.1
      [("a", .pint 1)] "\x7b\"a\": 1\x7d" rfl rfl⟩

/-- Counterexample to C3 as stated: the 3-tuple `("201 Created", {}, "hi")`
omits a Content-Type, yet the normalized headers carry none either — the
default Content-Type is not filled in for a string body (and the headers
are not kept exactly as given: `Access-Control-Allow-Origin` is added). -/
theorem tuple_content_type_cex :
    handle_weaprous
        (fun _ _ => .ok (.ptuple [.pstr "201 Created", .pdict [], .pstr "hi"]))
        reqGuardW =
      { status := .pstr "201 Created"
        headers := some [("Access-Control-Allow-Origin", .pstr "*")]
        body := .pbytes "hi" } ∧
    hget [("Access-Control-Allow-Origin", .pstr "*")] "Content-Type" = none := by
  constructor
  · rfl
  · simp [hget]

/-- C3 (amended): for a 3-element (status, headers, body) handler return
with a dict of headers, the status is kept exactly; the headers are kept
up to the addition of `Access-Control-Allow-Origin: *`; a string body is
UTF-8-encoded and a bytes body kept with no default Content-Type ever
filled in; a dict or list body is JSON-serialized and only then is the
default `application/json` Content-Type filled in, never overriding a
Content-Type the given headers already carry. -/
theorem tuple_normalization (st : PyVal) (hd : Headers) :
    (∀ s, normalizeResult (.ptuple [st, .pdict hd, .pstr s]) =
      .ok { status := st
            headers := some (hmerge [("Access-Control-Allow-Origin", .pstr "*")] hd)
            body := .pbytes s }) ∧
    (∀ b, normalizeResult (.ptuple [st, .pdict hd, .pbytes b]) =
      .ok { status := st
            headers := some (hmerge [("Access-Control-Allow-Origin", .pstr "*")] hd)
            body := .pbytes b }) ∧
    (∀ es j, jsonDumpsE (.pdict es) = .ok j →
      normalizeResult (.ptuple [st, .pdict hd, .pdict es]) =
        .ok { status := st
              headers := some (hmerge [("Access-Control-Allow-Origin", .pstr "*")]
                (hmerge [("Content-Type", .pstr "application/json; charset=utf-8")] hd))
              body := .pbytes j }) ∧
    (∀ xs j, jsonDumpsE (.plist xs) = .ok j →
      normalizeResult (.ptuple [st, .pdict hd, .plist xs]) =
        .ok { status := st
              headers := some (hmerge [("Access-Control-Allow-Origin", .pstr "*")]
                (hmerge [("Content-Type", .pstr "application/json; charset=utf-8")] hd))
              body := .pbytes j }) ∧
    ((hd.map Prod.fst).Nodup → ∀ vct, hget hd "Content-Type" = some vct →
      hget (hmerge [("Access-Control-Allow-Origin", .pstr "*")]
        (hmerge [("Content-Type", .pstr "application/json; charset=utf-8")] hd))
        "Content-Type" = some vct) := by
  have hhd : asHeadersE (.pdict hd) = .ok hd := by
    cases hd with
    | nil => rfl
    | cons p tl => rfl
  refine ⟨?_, ?_, ?_, ?_, ?_⟩
  · intro s
    have hstep : normalizeResult (.ptuple [st, .pdict hd, .pstr s]) = (do
        let h0 ← asHeadersE (.pdict hd)
        pure { status := st
               headers := some (hmerge [("Access-Control-Allow-Origin", .pstr "*")] h0)
               body := .pbytes s }) := rfl
    rw [hstep, hhd]
    rfl
  · intro b
    have hstep : normalizeResult (.ptuple [st, .pdict hd, .pbytes b]) = (do
        let h0 ← asHeadersE (.pdict hd)
        pure { status := st
               headers := some (hmerge [("Access-Control-Allow-Origin", .pstr "*")] h0)
               body := .pbytes b }) := rfl
    rw [hstep, hhd]
    rfl
  · intro es j hj
    have hstep : normalizeResult (.ptuple [st, .pdict hd, .pdict es]) = (do
        let j ← jsonDumpsE (.pdict es)
        let h0 ← asHeadersE (.pdict hd)
        pure { status := st
               headers := some (hmerge [("Access-Control-Allow-Origin", .pstr "*")]
                 (hmerge [("Content-Type", .pstr "application/json; charset=utf-8")] h0))
               body := .pbytes j }) := rfl
    rw [hstep, hj, hhd]
    rfl
  · intro xs j hj
    have hstep : normalizeResult (.ptuple [st, .pdict hd, .plist xs]) = (do
        let j ← jsonDumpsE (.plist xs)
        let h0 ← asHeadersE (.pdict hd)
        pure { status := st
               headers := some (hmerge [("Access-Control-Allow-Origin", .pstr "*")]
                 (hmerge [("Content-Type", .pstr "application/json; charset=utf-8")] h0))
               body := .pbytes j }) := rfl
    rw [hstep, hj, hhd]
    rfl
  · intro hnd vct hct
    have hXnd : (((hmerge [("Content-Type", .pstr "application/json; charset=utf-8")] hd).map
        Prod.fst).Nodup) :=
      nodup_hmerge hd [("Content-Type", .pstr "application/json; charset=utf-8")] (by simp)
    rw [hget_hmerge, hget_reverse_of_nodup _ hXnd, hget_hmerge,
      hget_reverse_of_nodup _ hnd, hct]
    simp [ofirst, hget]

/-- Witness for C3 (amended) at the spec's own example
`("201 Created", {"X": "y"}, {"id": 1})`. -/
theorem tuple_normalization_witness :
    jsonDumpsE (.pdict [("id", PyVal.pint 1)]) = .ok "\x7b\"id\": 1\x7d" ∧
    normalizeResult
        (.ptuple [.pstr "201 Created", .pdict [("X", .pstr "y")],
          .pdict [("id", .pint 1)]]) =
      .ok { status := .pstr "201 Created"
            headers := some [("Access-Control-Allow-Origin", .pstr "*"),
                             ("Content-Type", .pstr "application/json; charset=utf-8"),
                             ("X", .pstr "y")]
            body := .pbytes "\x7b\"id\": 1\x7d" } :=
  ⟨rfl,
    (tuple_normalization (.pstr "201 Created") [("X", .pstr "y")]).2.2.1
      [("id", .pint 1)] "\x7b\"id\": 1\x7d" rfl⟩

/-- C5: a `POST /login` body whose `&`-split, first-`=`-split form yields
`username == "admin"` and `password == "password"` produces status
`200 OK` with headers `Content-Type: text/html; charset=utf-8` and
`Set-Cookie: auth=true; Path=/`, and a body equal to the static
`/index.html` response bytes after the first blank-line separator
(`splitBody`); every other body produces exactly the `login_failed`
catalog triple (status `401 Unauthorized`). -/
theorem login_flow_spec (w : World) (req : Request) :
    (∀ raw : String,
      sget (parseCreds req.body) "username" = some "admin" →
      sget (parseCreds req.body) "password" = some "password" →
      w.buildResponse { req with path := "/index.html" } = .ok raw →
        handle_login w req = .ok
          { status := .pstr "200 OK"
            headers := some [("Content-Type", .pstr "text/html; charset=utf-8"),
                             ("Set-Cookie", .pstr "auth=true; Path=/")]
            body := .pbytes (splitBody raw) }) ∧
    (¬(sget (parseCreds req.body) "username" = some "admin" ∧
        sget (parseCreds req.body) "password" = some "password") →
      handle_login w req = .ok (catalogTriple errLoginFailed)) := by
  constructor
  · intro raw hu hp hb
    simp only [handle_login, if_pos (And.intro hu hp), hb]
    rfl
  · intro h
    simp only [handle_login, if_neg h]
    rfl

/-- Witness for C5: the correct credentials serve the static body after
the blank-line separator with the auth cookie; a wrong password gets the
`login_failed` triple. -/
theorem login_flow_spec_witness :
    (sget (parseCreds reqLoginW.body) "username" = some "admin" ∧
     sget (parseCreds reqLoginW.body) "password" = some "password" ∧
     wSample.buildResponse { reqLoginW with path := "/index.html" } =
       .ok "HTTP/1.1 200 OK\r\nServer: WeApRous\r\n\r\nSTATIC:/index.html") ∧
    handle_login wSample reqLoginW = .ok
      { status := .pstr "200 OK"
        headers := some [("Content-Type", .pstr "text/html; charset=utf-8"),
                         ("Set-Cookie", .pstr "auth=true; Path=/")]
        body := .pbytes "STATIC:/index.html" } ∧
    handle_login wSample { reqLoginW with body := "username=admin&password=wrong" } =
      .ok (catalogTriple errLoginFailed) := by
  refine ⟨⟨by decide, by decide, rfl⟩, ?_, ?_⟩
  · exact (login_flow_spec wSample reqLoginW).1
      "HTTP/1.1 200 OK\r\nServer: WeApRous\r\n\r\nSTATIC:/index.html"
      (by decide) (by decide) rfl
  · exact (login_flow_spec wSample
      { reqLoginW with body := "username=admin&password=wrong" }).2 (by decide)

/-- Counterexample to C1 as stated: under a route table binding a hook to
`GET /` only, a `GET /` carrying cookie `auth=true` is answered by the
hook while `GET /index.html` with the same cookies, headers and body is
answered by the static pipeline — the two dispatches differ, because the
dispatcher never rewrites `/` to `/index.html`. -/
theorem no_root_rewrite_cex :
    tryBytes wC1 (connOf rawIndexC1) =
      .ok "HTTP/1.1 200 OK\r\nServer: WeApRous\r\n\r\nSTATIC:/index.html" ∧
    okPayload (tryBytes wC1 (connOf rawSlashC1)) ≠
      okPayload (tryBytes wC1 (connOf rawIndexC1)) := by
  constructor
  · rfl
  · decide

/-- C1 (amended): the dispatcher performs no rewrite of `/`: after the
session guard passes, the request is dispatched with its original path —
the hook the parser bound for `/` is invoked if present, and otherwise
the static composer is called with the path `/` unchanged. `GET /` is
therefore not, in general, dispatched identically to `GET /index.html`. -/
theorem no_root_rewrite (w : World) (req : Request)
    (hpath : req.path = "/") (hauth : sget req.cookies "auth" = some "true") :
    (req.hook = none → afterParse w req = w.buildResponse req) ∧
    (∀ hk, req.hook = some hk →
      afterParse w req = sendPayloadE w (handle_weaprous hk req)) := by
  have hnl : ¬(req.method = "POST" ∧ req.path = "/login") := by
    rintro ⟨-, hp⟩
    rw [hpath] at hp
    exact absurd hp (by decide)
  have hguard : cookie_auth_guard req = none := by
    simp only [cookie_auth_guard, if_pos (Or.inl hpath)]
    rw [if_neg (fun hne => hne hauth)]
  constructor
  · intro hhook
    simp only [afterParse, if_neg hnl, hguard, dispatch, hhook, handle_static]
    cases hb : w.buildResponse req with
    | ok raw => rfl
    | error e => rfl
  · intro hk hhook
    simp only [afterParse, if_neg hnl, hguard, dispatch, hhook]
    rfl

/-- Witness for C1 (amended) at the two concrete guard-passing requests. -/
theorem no_root_rewrite_witness :
    (reqSlashC1.path = "/" ∧ sget reqSlashC1.cookies "auth" = some "true") ∧
    afterParse wC1 reqSlashC1 = sendPayloadE wC1 (handle_weaprous hkHi reqSlashC1) ∧
    afterParse wC1 { reqSlashC1 with hook := none } =
      wC1.buildResponse { reqSlashC1 with hook := none } := by
  refine ⟨⟨rfl, rfl⟩, ?_, ?_⟩
  · exact (no_root_rewrite wC1 reqSlashC1 rfl rfl).2 hkHi rfl
  · exact (no_root_rewrite wC1 { reqSlashC1 with hook := none } rfl rfl).1 rfl

/-- Counterexample to C4 as stated: on a connection whose sends all fail,
the failure of the fallback `server_error` write propagates out of
`handle_client` — it does not return normally. -/
theorem transport_swallow_cex :
    (handle_client wSample connDead).2 = .error "Broken pipe" ∧
    isOkU (handle_client wSample connDead).2 = false := by
  constructor
  · rfl
  · rfl

/-- C4 (amended): a failing `close` never changes the outcome of
`handle_client`; a failure of the primary send is caught, the
`server_error` fallback write is attempted, and `handle_client` returns
normally if that write (or the primary one) succeeds; but when the
fallback write itself raises, the exception propagates to the caller. -/
theorem transport_fault_policy (w : World) (conn : Conn) :
    (∀ b, (handle_client w { conn with closeOk := b }).2 = (handle_client w conn).2) ∧
    (∀ s, tryBytes w conn = .ok s → conn.sendOk 1 = true →
      (handle_client w conn).2 = .ok ()) ∧
    (∀ e, tryBytes w conn = .error e → conn.sendOk 0 = true →
      (handle_client w conn).2 = .ok ()) ∧
    (∀ e, tryBytes w conn = .error e → conn.sendOk 0 = false →
      (handle_client w conn).2 = .error conn.sendErrMsg) ∧
    (∀ s, tryBytes w conn = .ok s → conn.sendOk 0 = false → conn.sendOk 1 = false →
      (handle_client w conn).2 = .error conn.sendErrMsg) := by
  refine ⟨?_, ?_, ?_, ?_, ?_⟩
  · intro b
    have htry : tryBytes w { conn with closeOk := b } = tryBytes w conn := rfl
    cases h : tryBytes w conn <;>
      by_cases h0 : conn.sendOk 0 <;> by_cases h1 : conn.sendOk 1 <;>
        simp [handle_client, htry, h, h0, h1]
  · intro s hs h1
    by_cases h0 : conn.sendOk 0 <;> simp [handle_client, hs, h0, h1]
  · intro e he h0
    simp [handle_client, he, h0]
  · intro e he h0
    simp [handle_client, he, h0]
  · intro s hs h0 h1
    simp [handle_client, hs, h0, h1]

/-- Witness for C4 (amended): primary send fails, fallback write
succeeds, `handle_client` returns normally. -/
theorem transport_fault_policy_witness :
    (tryBytes wSample connFlaky =
       .ok "HTTP/1.1 200 OK\r\nServer: WeApRous\r\n\r\nSTATIC:/about.html" ∧
     connFlaky.sendOk 1 = true) ∧
    (handle_client wSample connFlaky).2 = .ok () :=
  ⟨⟨rfl, rfl⟩,
    (transport_fault_policy wSample connFlaky).2.1
      "HTTP/1.1 200 OK\r\nServer: WeApRous\r\n\r\nSTATIC:/about.html" rfl rfl⟩

/-- C9: on every input — malformed bytes (a failing parse), a guard
rejection, a handler fault, a send failure, or a successful response —
the connection's close operation is invoked exactly once, as the last
socket action of the cycle, and a failure of close itself never changes
the outcome seen by the caller. -/
theorem close_once_spec (w : World) (conn : Conn) :
    ((handle_client w conn).1.countP isCloseEv = 1) ∧
    ((handle_client w conn).1.getLast? =
      some (if conn.closeOk then ConnEvent.closed else ConnEvent.closeFailed)) ∧
    ((handle_client w { conn with closeOk := true }).2 =
      (handle_client w { conn with closeOk := false }).2) := by
  have htryT : tryBytes w { conn with closeOk := true } = tryBytes w conn := rfl
  have htryF : tryBytes w { conn with closeOk := false } = tryBytes w conn := rfl
  refine ⟨?_, ?_, ?_⟩ <;>
    cases h : tryBytes w conn <;>
      by_cases h0 : conn.sendOk 0 <;> by_cases h1 : conn.sendOk 1 <;>
        by_cases hc : conn.closeOk <;>
          simp [handle_client, htryT, htryF, h, h0, h1, hc, isCloseEv]

/-- C10: when a bound handler returns a 3-tuple whose first element is
the literal string `"__RAW__"` and whose third element is a bytes value,
the dispatcher hands exactly those bytes to `sendall` — for every world,
in particular for every composer, so no status line or headers are
composed around them: the static path's internal raw tag is forgeable
through the public handler return interface. -/
theorem raw_passthrough_spec (w : World) (req : Request)
    (hk : Headers → String → Except String PyVal)
    (hd : List (String × PyVal)) (payload : String)
    (hhook : req.hook = some hk)
    (hm : ¬(req.method = "POST" ∧ req.path = "/login"))
    (hg : cookie_auth_guard req = none)
    (hres : hk req.headers req.body =
      .ok (.ptuple [.pstr "__RAW__", .pdict hd, .pbytes payload])) :
    afterParse w req = .ok payload := by
  simp only [afterParse, if_neg hm, hg, dispatch, hhook]
  rw [handle_weaprous_eq hk req _ hres]
  have hhd : asHeadersE (.pdict hd) = .ok hd := by
    cases hd with
    | nil => rfl
    | cons p tl => rfl
  have hstep : normalizeResult (.ptuple [.pstr "__RAW__", .pdict hd, .pbytes payload]) = (do
      let h0 ← asHeadersE (.pdict hd)
      pure { status := .pstr "__RAW__"
             headers := some (hmerge [("Access-Control-Allow-Origin", .pstr "*")] h0)
             body := .pbytes payload }) := rfl
  rw [hstep, hhd]
  rfl

/-- Witness for C10: the forged `__RAW__` triple reaches the socket
verbatim. -/
theorem raw_passthrough_spec_witness :
    (reqRawW.hook = some hkRaw ∧ cookie_auth_guard reqRawW = none ∧
     hkRaw reqRawW.headers reqRawW.body =
       .ok (.ptuple [.pstr "__RAW__", .pdict [], .pbytes "FORGED"])) ∧
    afterParse wSample reqRawW = .ok "FORGED" :=
  ⟨⟨rfl, rfl, rfl⟩,
    raw_passthrough_spec wSample reqRawW hkRaw [] "FORGED" rfl (by decide) rfl rfl⟩
